import Mathlib

/-!
Verification of the two scripts of the nerpa repository:
ofp4/run-of-test.py (a bounded process runner driving an external compiler)
and nerpa_controlplane/snvs/sendpacket.py (a one-shot packet injector).

The Python code is shallowly embedded: the external world (the child
process and the file system) is abstracted into explicit parameters, and
every observable side effect of run_timeout is recorded in an event trace.
-/

/-- Exit status constant SUCCESS = 0 (run-of-test.py line 30). -/
def SUCCESS : Int := 0

/-- Exit status constant FAILURE = 1 (run-of-test.py line 31). -/
def FAILURE : Int := 1

/-- TIMEOUT = 10 * 60 seconds (run-of-test.py line 32). -/
def TIMEOUT : Nat := 10 * 60

/-- Compiler options record, mirroring class Options (run-of-test.py
lines 34 to 42).  Fields keep the Python attribute names. -/
structure Options where
  cleanupTmp : Bool
  binary : String
  p4filename : String
  compilerSrcdir : String
  verbose : Bool
  compilerOptions : List String
  deriving Repr

/-- The defaults set by the Options constructor (lines 36 to 42). -/
def defaultOptions : Options :=
  { cleanupTmp := true, binary := "", p4filename := "", compilerSrcdir := "",
    verbose := false, compilerOptions := [] }

/-- Outcome of the external child process for one run: the environment
model over which run_timeout is interpreted.  failsToStart is the case
where Popen raises (line 70 never assigns local.process); exitsWithin is
the case where the child exits with the given code before the join
timeout elapses; runsPastTimeout is the case where the thread is still
alive when join(timeout) returns, carrying the wait status the child
eventually reports after terminate() is sent (for a child killed by
SIGTERM this status is -15, the negated signal number). -/
inductive ProcBehavior where
  | failsToStart : ProcBehavior
  | exitsWithin : Nat → ProcBehavior
  | runsPastTimeout : Int → ProcBehavior
  deriving DecidableEq, Repr

/-- Observable events of one run_timeout call, in program order.
logCommandLine is the print of the joined args (line 63); procStart is
the Popen call (line 70); procExit is the completion of process.wait
(line 71); logTimeout is the stderr diagnostic (line 81);
terminateSignal is process.terminate() (line 82); logFailedToStart is
the literal message "Process failed to start" (line 87); logExitCode is
the verbose exit code print (line 90). -/
inductive Event where
  | logCommandLine : String → Event
  | procStart : Event
  | procExit : Int → Event
  | logTimeout : String → Event
  | terminateSignal : Event
  | logFailedToStart : Event
  | logExitCode : Int → Event
  deriving DecidableEq, Repr

/-- run_timeout (run-of-test.py lines 61 to 91).  Returns the Python
return value together with the trace of events.  The stderr parameter is
accepted but has no effect, because target sets procstderr = None (line
69) and never uses the argument; the timeout parameter only decides
which side of the join(timeout) race occurred, which the ProcBehavior
argument already encodes.  On the timeout path the source returns
local.process.returncode (line 91), not -1: -1 is returned only when
local.process is None (lines 84 to 88). -/
def run_timeout (options : Options) (args : List String) (timeout : Nat)
    (stderr : String) (behavior : ProcBehavior) : Int × List Event :=
  let cmdline := String.intercalate (" ") args
  match behavior with
  | ProcBehavior.failsToStart =>
      (-1, [Event.logCommandLine cmdline]
        ++ if options.verbose then [Event.logFailedToStart] else [])
  | ProcBehavior.exitsWithin code =>
      ((code : Int),
        [Event.logCommandLine cmdline, Event.procStart, Event.procExit (code : Int)]
        ++ if options.verbose then [Event.logExitCode (code : Int)] else [])
  | ProcBehavior.runsPastTimeout st =>
      (st, [Event.logCommandLine cmdline, Event.procStart,
            Event.logTimeout ("Timeout " ++ cmdline), Event.terminateSignal,
            Event.procExit st]
        ++ if options.verbose then [Event.logExitCode st] else [])

/-- Python str.startswith on code point sequences. -/
def pyStartsWith (s pre : String) : Bool :=
  pre.data.isPrefixOf s.data

/-- Python str.endswith on code point sequences. -/
def pyEndsWith (s suf : String) : Bool :=
  suf.data.isSuffixOf s.data

/-- Python slicing s[n:] on code point sequences. -/
def pyDrop (s : String) (n : Nat) : String :=
  String.mk (s.data.drop n)

/-- Python slicing s[:-n] on code point sequences (for n at most the
length; for longer n both give the empty string). -/
def pyDropRight (s : String) (n : Nat) : String :=
  String.mk (s.data.take (s.data.length - n))

/-- Split a code point sequence at every slash. -/
def splitOnSlash : List Char → List (List Char)
  | [] => [[]]
  | x :: xs =>
    match splitOnSlash xs with
    | [] => [[]]
    | g :: gs => if x = '/' then [] :: g :: gs else (x :: g) :: gs

/-- Python os.path.basename for slash separated paths: the part after
the last slash. -/
def osBasename (p : String) : String :=
  String.mk ((splitOnSlash p.data).getLastD [])

/-- Result of one process_file call (run-of-test.py lines 94 to 120).
result is Except.error msg when the call raises the uncaught Exception
of line 107, and Except.ok r when it returns r; tmpdirExists records
whether the scratch directory created by tempfile.mkdtemp (line 96)
still exists when the call ends; invoked records whether run_timeout was
reached; args is the argument vector handed to run_timeout (empty when
not invoked); stderrPath, p4runtimeFile and outputFile are the three
derived file paths of lines 102 to 104. -/
structure PFResult where
  result : Except String Int
  tmpdirExists : Bool
  invoked : Bool
  args : List String
  stderrPath : String
  p4runtimeFile : String
  outputFile : String
  deriving Repr

/-- process_file (run-of-test.py lines 94 to 120).  p4fileExists models
os.path.isfile(options.p4filename); tmpdir is the fresh directory name
returned by tempfile.mkdtemp.  When the input file is missing the
function raises (line 107) after the directory was created and before
any cleanup: there is no try/finally around lines 106 to 118, so the
directory survives that path.  On the return path the directory is
removed exactly when options.cleanupTmp holds (lines 115 to 118). -/
def process_file (options : Options) (argv : List String) (p4fileExists : Bool)
    (behavior : ProcBehavior) (tmpdir : String) : PFResult :=
  let basename := osBasename options.p4filename
  let stderr := tmpdir ++ "/" ++ basename ++ "-stderr"
  let p4runtimeFile := tmpdir ++ "/" ++ basename ++ ".p4info.txt"
  let outputFile := tmpdir ++ "/" ++ basename ++ ".dl"
  if p4fileExists = false then
    { result := Except.error ("No such file " ++ options.p4filename),
      tmpdirExists := true, invoked := false, args := [],
      stderrPath := stderr, p4runtimeFile := p4runtimeFile,
      outputFile := outputFile }
  else
    let args := ["./p4c-of", "-o", outputFile, "--p4runtime-files", p4runtimeFile]
                  ++ options.compilerOptions ++ argv
    let r := (run_timeout options args TIMEOUT stderr behavior).1
    { result := Except.ok r,
      tmpdirExists := !options.cleanupTmp,
      invoked := true, args := args,
      stderrPath := stderr, p4runtimeFile := p4runtimeFile,
      outputFile := outputFile }

/-- Python str.split() with no separator: split on whitespace and drop
empty pieces. -/
def pySplit (s : String) : List String :=
  (s.split Char.isWhitespace).filter (fun t => !t.isEmpty)

/-- Outcome of the option parsing loop of main (run-of-test.py lines 138
to 155).  ok carries the updated options and the remaining argv, which
is always nonempty because the loop exits only after inspecting its
first element; usageExit is a sys.exit(FAILURE) after printing the usage
message; indexError is an uncaught IndexError (argv[0] or argv[0][0] or
argv[1] out of range), which aborts the interpreter with a traceback and
exit status 1 but prints no usage message. -/
inductive ParseResult where
  | ok : Options → String → List String → ParseResult
  | usageExit : ParseResult
  | indexError : ParseResult
  deriving Repr

/-- The while loop of main (run-of-test.py lines 138 to 155).  Note the
guard of line 144 tests len(argv) == 0 at a point where argv still
contains the "-a" element, so it can never hold: it is kept here
verbatim, and the missing argument case falls through to argv[1], an
IndexError. -/
def parseLoop (options : Options) : List String → ParseResult
  | [] => ParseResult.indexError
  | a :: rest =>
    -- argv[0][0] raises IndexError on an empty string, otherwise yields
    -- the first character, compared against the dash
    if a.data.isEmpty then ParseResult.indexError
    else if a.data.headD ' ' != '-' then ParseResult.ok options a rest
    else if a = "-b" then parseLoop { options with cleanupTmp := false } rest
    else if a = "-v" then parseLoop { options with verbose := true } rest
    else if a = "-a" then
      if (a :: rest).length = 0 then ParseResult.usageExit
      else
        match rest with
        | [] => ParseResult.indexError
        | b :: rest2 =>
            parseLoop
              { options with compilerOptions := options.compilerOptions ++ pySplit b }
              rest2
    else ParseResult.usageExit

/-- The test name derivation of main (run-of-test.py lines 158 to 164):
options.testName stays None unless the file name starts with the root
directory, in which case that prefix, then a leading slash, then a
trailing ".p4" are stripped. -/
def deriveTestName (compilerSrcdir p4filename : String) : Option String :=
  if pyStartsWith p4filename compilerSrcdir then
    let t1 := pyDrop p4filename compilerSrcdir.length
    let t2 := if pyStartsWith t1 ("/") then pyDrop t1 1 else t1
    let t3 := if pyEndsWith t2 (".p4") then pyDropRight t2 3 else t2
    some t3
  else none

/-- OS level exit status produced by sys.exit(n) for an int n on POSIX:
the low 8 bits of n. -/
def posixExitStatus (n : Int) : Nat := (n % 256).toNat

/-- Observable outcome of one invocation of main (run-of-test.py lines
123 to 167).  exitStatus is the OS exit status of the driver process
(for an uncaught exception the interpreter exits with status 1);
usagePrinted records whether the usage message of lines 44 to 53 was
printed; invokedExternal and externalArgs record whether and with which
argument vector run_timeout was reached; crashedWithException records an
uncaught Python exception; testNameSet is none when line 158 was never
reached and some t when options.testName was assigned t. -/
structure MainResult where
  exitStatus : Nat
  usagePrinted : Bool
  invokedExternal : Bool
  externalArgs : List String
  crashedWithException : Bool
  testNameSet : Option (Option String)
  deriving Repr

/-- main (run-of-test.py lines 123 to 167).  rootIsDir models
os.path.isdir(argv[1]); p4fileExists models
os.path.isfile(options.p4filename); behavior and tmpdir are the
environment of the single process_file call. -/
def mainModel (argv0 : List String) (rootIsDir p4fileExists : Bool)
    (behavior : ProcBehavior) (tmpdir : String) : MainResult :=
  match argv0 with
  | [] =>
      { exitStatus := 1, usagePrinted := false, invokedExternal := false,
        externalArgs := [], crashedWithException := true, testNameSet := none }
  | binary :: rest0 =>
    if (binary :: rest0).length ≤ 2 then
      { exitStatus := 1, usagePrinted := true, invokedExternal := false,
        externalArgs := [], crashedWithException := false, testNameSet := none }
    else
      match rest0 with
      | [] =>
          { exitStatus := 1, usagePrinted := false, invokedExternal := false,
            externalArgs := [], crashedWithException := true, testNameSet := none }
      | compilerSrcdir :: argv1 =>
        -- line 126 sets options.binary and line 131 options.compilerSrcdir;
        -- every other field keeps the constructor default of lines 36 to 42
        let options : Options :=
          { cleanupTmp := true, binary := binary, p4filename := "",
            compilerSrcdir := compilerSrcdir, verbose := false,
            compilerOptions := [] }
        if rootIsDir = false then
          { exitStatus := 1, usagePrinted := true, invokedExternal := false,
            externalArgs := [], crashedWithException := false, testNameSet := none }
        else
          match parseLoop options argv1 with
          | ParseResult.indexError =>
              { exitStatus := 1, usagePrinted := false, invokedExternal := false,
                externalArgs := [], crashedWithException := true, testNameSet := none }
          | ParseResult.usageExit =>
              { exitStatus := 1, usagePrinted := true, invokedExternal := false,
                externalArgs := [], crashedWithException := false, testNameSet := none }
          | ParseResult.ok opts first restArgs =>
            let p4filename := (first :: restArgs).getLast (List.cons_ne_nil _ _)
            let opts := { opts with p4filename := p4filename }
            let testName := deriveTestName opts.compilerSrcdir p4filename
            let pf := process_file opts (first :: restArgs) p4fileExists behavior tmpdir
            match pf.result with
            | Except.error _ =>
                { exitStatus := 1, usagePrinted := false,
                  invokedExternal := pf.invoked, externalArgs := pf.args,
                  crashedWithException := true, testNameSet := some testName }
            | Except.ok r =>
                { exitStatus := posixExitStatus r, usagePrinted := false,
                  invokedExternal := pf.invoked, externalArgs := pf.args,
                  crashedWithException := false, testNameSet := some testName }

/-- A single Ethernet/IP/UDP frame as built by sendpacket.py: the fields
set explicitly in the scapy expression. -/
structure PacketFrame where
  ethSrc : String
  ethDst : String
  ipDst : String
  sport : Nat
  dport : Nat
  deriving DecidableEq, Repr

/-- One sendp call: the frame and the interface it is emitted on. -/
structure Emission where
  frame : PacketFrame
  iface : String
  deriving DecidableEq, Repr

/-- sendpacket.py (lines 6 to 11) as a function of sys.argv[1]: the list
of frames emitted, or the error raised before anything is emitted (the
final branch executes raise False, which itself raises a TypeError since
False is not an exception, still aborting before any sendp call). -/
def sendpacket (arg : String) : Except String (List Emission) :=
  if arg = "0" then
    Except.ok [{ frame := { ethSrc := "00:11:11:00:00:00",
                            ethDst := "00:22:22:00:00:00",
                            ipDst := "1.2.3.4", sport := 1234, dport := 2345 },
                 iface := "veth0" }]
  else if arg = "1" then
    Except.ok [{ frame := { ethSrc := "00:22:22:00:00:00",
                            ethDst := "00:11:11:00:00:00",
                            ipDst := "1.2.3.4", sport := 1234, dport := 2345 },
                 iface := "veth2" }]
  else
    Except.error ("raise False aborts before any frame is sent")

/-- Agreement of two parse outcomes on everything except the stored
root directory (compilerSrcdir): same shape, same remaining argv, and
equal options fields apart from compilerSrcdir, which the code reads
afterwards only in the test name derivation. -/
def agreeExceptRoot : ParseResult → ParseResult → Prop
  | ParseResult.ok a f r, ParseResult.ok b g s =>
      f = g ∧ r = s ∧ a.cleanupTmp = b.cleanupTmp ∧ a.binary = b.binary ∧
      a.p4filename = b.p4filename ∧ a.verbose = b.verbose ∧
      a.compilerOptions = b.compilerOptions
  | ParseResult.usageExit, ParseResult.usageExit => True
  | ParseResult.indexError, ParseResult.indexError => True
  | _, _ => False

/-- C8: for selector "0" or "1" the injector emits exactly one frame;
the two frames carry the same MAC pair with source and destination
swapped and leave on different interfaces; any other selector raises
before any frame is emitted. -/
theorem sendpacket_selector (s : String) :
    (s = "0" ∨ s = "1" → ∃ e : Emission, sendpacket s = Except.ok [e]) ∧
    (s ≠ "0" → s ≠ "1" →
      sendpacket s = Except.error ("raise False aborts before any frame is sent")) ∧
    (∃ e0 e1 : Emission,
      sendpacket ("0") = Except.ok [e0] ∧ sendpacket ("1") = Except.ok [e1] ∧
      e0.frame.ethSrc = e1.frame.ethDst ∧ e0.frame.ethDst = e1.frame.ethSrc ∧
      e0.frame.ethSrc ≠ e0.frame.ethDst ∧ e0.iface ≠ e1.iface) := by
  refine ⟨?_, ?_, ?_⟩
  · rintro (h | h) <;> subst h
    · exact ⟨_, rfl⟩
    · exact ⟨_, rfl⟩
  · intro h0 h1
    simp [sendpacket, h0, h1]
  · refine ⟨_, _, rfl, rfl, by decide, by decide, by decide, by decide⟩

/-- Witness for C8 at the invalid selector "2". -/
theorem sendpacket_selector_witness :
    ("2" : String) ≠ "0" ∧ ("2" : String) ≠ "1" ∧
    sendpacket ("2") = Except.error ("raise False aborts before any frame is sent") := by
  refine ⟨by decide, by decide, ?_⟩
  exact (sendpacket_selector ("2")).2.1 (by decide) (by decide)

/-- C6: for root directory /a/b and input file /a/b/c/d.p4, the derived
logical test name is c/d, both for deriveTestName itself and for the
full driver run, which stores it in options.testName. -/
theorem deriveTestName_example :
    deriveTestName ("/a/b") ("/a/b/c/d.p4") = some "c/d" ∧
    (mainModel ["./run-of-test.py", "/a/b", "/a/b/c/d.p4"] true true
        (ProcBehavior.exitsWithin 0) "./tmp0").testNameSet = some (some "c/d") := by
  constructor
  · decide
  · decide

/-- C2 counterexample: when the timeout elapses and the terminated child
is killed by SIGTERM (wait status -15), run_timeout returns -15, not the
-1 sentinel that the process creation failure path returns, so at this
concrete input the claimed return value -1 is wrong and the return value
does distinguish timeout from start failure. -/
theorem run_timeout_timeout_returns_wait_status_cex :
    (run_timeout defaultOptions ["./p4c-of", "x.p4"] 600 ""
        (ProcBehavior.runsPastTimeout (-15))).1 = -15 ∧
    (run_timeout defaultOptions ["./p4c-of", "x.p4"] 600 ""
        ProcBehavior.failsToStart).1 = -1 ∧
    ¬ ((-15 : Int) = -1) := by
  refine ⟨rfl, rfl, by decide⟩

/-- C2 (amended): if the timeout elapses first, run_timeout writes the
timeout diagnostic, sends a termination signal, waits for the child to
actually report termination, and returns the waited wait status (line
91), i.e. the negated signal number such as -15 rather than the -1
sentinel of the start failure path. -/
theorem run_timeout_timeout_path (options : Options) (args : List String)
    (timeout : Nat) (stderr : String) (st : Int) :
    (run_timeout options args timeout stderr (ProcBehavior.runsPastTimeout st)).1 = st ∧
    List.Sublist
      [Event.logTimeout ("Timeout " ++ String.intercalate (" ") args),
       Event.terminateSignal, Event.procExit st]
      (run_timeout options args timeout stderr (ProcBehavior.runsPastTimeout st)).2 := by
  cases hv : options.verbose <;> simp [run_timeout, hv]

/-- C7: when process creation fails, run_timeout returns -1, and the
message "Process failed to start" is printed exactly in verbose mode. -/
theorem run_timeout_start_failure (options : Options) (args : List String)
    (timeout : Nat) (stderr : String) :
    (run_timeout options args timeout stderr ProcBehavior.failsToStart).1 = -1 ∧
    (Event.logFailedToStart ∈
        (run_timeout options args timeout stderr ProcBehavior.failsToStart).2
      ↔ options.verbose = true) := by
  cases hv : options.verbose <;> simp [run_timeout, hv]

/-- Witness for C7 at a concrete verbose configuration. -/
theorem run_timeout_start_failure_witness :
    (run_timeout { defaultOptions with verbose := true } ["nosuch"] 600 ""
        ProcBehavior.failsToStart).1 = -1 ∧
    Event.logFailedToStart ∈
      (run_timeout { defaultOptions with verbose := true } ["nosuch"] 600 ""
        ProcBehavior.failsToStart).2 := by
  refine ⟨(run_timeout_start_failure _ _ _ _).1, ?_⟩
  exact (run_timeout_start_failure { defaultOptions with verbose := true }
    ["nosuch"] 600 "").2.mpr rfl

/-- C9: in every run of run_timeout, the log line holding the full
command line is the first observable event, hence precedes the process
start; and every verbose exit code log line occurs after the event in
which the waiting thread observed the corresponding process exit. -/
theorem run_timeout_log_order (options : Options) (args : List String)
    (timeout : Nat) (stderr : String) (behavior : ProcBehavior) :
    ((run_timeout options args timeout stderr behavior).2).head? =
      some (Event.logCommandLine (String.intercalate (" ") args)) ∧
    (Event.procStart ∈ (run_timeout options args timeout stderr behavior).2 →
      List.Sublist
        [Event.logCommandLine (String.intercalate (" ") args), Event.procStart]
        (run_timeout options args timeout stderr behavior).2) ∧
    (∀ c : Int,
      Event.logExitCode c ∈ (run_timeout options args timeout stderr behavior).2 →
      List.Sublist [Event.procExit c, Event.logExitCode c]
        (run_timeout options args timeout stderr behavior).2) := by
  cases behavior <;> cases hv : options.verbose <;> simp [run_timeout, hv]
  exact List.Sublist.cons _ (List.Sublist.cons _ (List.Sublist.cons _
    (List.Sublist.cons _ (List.Sublist.cons₂ _ (List.Sublist.cons₂ _
      (List.nil_sublist _))))))

/-- Helper: the parsing loop applied to a single trailing argument whose
first character is not a dash exits at once, returning that argument. -/
theorem parseLoop_single_file (options : Options) (file : String) (c : Char)
    (cs : List Char) (hdata : file.data = c :: cs) (hc : c ≠ '-') :
    parseLoop options [file] = ParseResult.ok options file [] := by
  simp [parseLoop, hdata, hc]

/-- C1 counterexample: a command that exits on its own with code 2 makes
the driver exit with status 2, not 1: main hands the result of
process_file to sys.exit verbatim (line 167), so nonzero child exit
codes are forwarded rather than collapsed to 1. -/
theorem driver_exit_status_cex :
    (run_timeout defaultOptions ["./p4c-of"] 600 ""
        (ProcBehavior.exitsWithin 2)).1 = 2 ∧
    (mainModel ["./run-of-test.py", "/a/b", "x.p4"] true true
        (ProcBehavior.exitsWithin 2) "./tmp0").exitStatus = 2 ∧
    ¬ ((2 : Nat) = 1) := by
  refine ⟨rfl, by decide, by decide⟩

/-- C1 (amended): for every command that exits on its own with exit code
N (0 to 255), run_timeout returns N and the driver process exits with
status N itself: the child exit code is forwarded verbatim, so success
is status 0 but a failure N is reported as N, not as 1. -/
theorem driver_forwards_exit_code (prog root file tmpdir : String) (N : Nat)
    (hfile : ∃ c cs, file.data = c :: cs ∧ c ≠ '-') (hN : N ≤ 255) :
    (∀ (options : Options) (args : List String) (timeout : Nat) (stderr : String),
      (run_timeout options args timeout stderr (ProcBehavior.exitsWithin N)).1 = (N : Int)) ∧
    (mainModel [prog, root, file] true true
        (ProcBehavior.exitsWithin N) tmpdir).exitStatus = N := by
  obtain ⟨c, cs, hdata, hc⟩ := hfile
  have hp := parseLoop_single_file
    { cleanupTmp := true, binary := prog, p4filename := "", compilerSrcdir := root,
      verbose := false, compilerOptions := [] } file c cs hdata hc
  refine ⟨fun options args timeout stderr => rfl, ?_⟩
  simp [mainModel, hp, process_file, run_timeout, posixExitStatus]
  omega

/-- Witness for C1 (amended) at exit code 7. -/
theorem driver_forwards_exit_code_witness :
    (run_timeout defaultOptions ["x.p4"] 600 ""
        (ProcBehavior.exitsWithin 7)).1 = (7 : Int) ∧
    (mainModel ["./run-of-test.py", "/a/b", "x.p4"] true true
        (ProcBehavior.exitsWithin 7) "./tmp0").exitStatus = 7 := by
  have h := driver_forwards_exit_code ("./run-of-test.py") ("/a/b") ("x.p4") ("./tmp0") 7
    ⟨'x', ['.', 'p', '4'], by decide, by decide⟩ (by decide)
  exact ⟨h.1 defaultOptions ["x.p4"] 600 "", h.2⟩

/-- C3 is a code bug: with cleanup enabled the scratch directory is
removed on the success, failure and timeout return paths, but when the
input file does not exist process_file raises its Exception (line 107)
after tempfile.mkdtemp (line 96) with no try/finally, so on that exit
path the directory persists even though cleanupTmp holds; with -b it
persists as specified. -/
theorem process_file_missing_input_leaks_tmpdir :
    ((process_file { defaultOptions with p4filename := "missing.p4" } ["missing.p4"]
        false (ProcBehavior.exitsWithin 0) "./tmp0").result =
      Except.error ("No such file " ++ "missing.p4")) ∧
    ({ defaultOptions with p4filename := "missing.p4" } : Options).cleanupTmp = true ∧
    (process_file { defaultOptions with p4filename := "missing.p4" } ["missing.p4"]
        false (ProcBehavior.exitsWithin 0) "./tmp0").tmpdirExists = true ∧
    (process_file { defaultOptions with p4filename := "x.p4" } ["x.p4"]
        true (ProcBehavior.exitsWithin 0) "./tmp0").tmpdirExists = false ∧
    (process_file { defaultOptions with p4filename := "x.p4" } ["x.p4"]
        true (ProcBehavior.runsPastTimeout (-15)) "./tmp0").tmpdirExists = false ∧
    (process_file { defaultOptions with cleanupTmp := false, p4filename := "x.p4" }
        ["x.p4"] true (ProcBehavior.exitsWithin 0) "./tmp0").tmpdirExists = true := by
  exact ⟨rfl, rfl, rfl, rfl, rfl, rfl⟩

/-- C4 is a code bug for the -a case: a missing trailing file argument
and an unknown flag do print the usage message and exit with status 1
without reaching the external command, but -a given as the last
argument does not: the guard of line 144 tests len(argv) == 0 while
argv still contains "-a" itself, so it never fires, and line 149
evaluates argv[1], an uncaught IndexError that aborts with a traceback
(exit status 1) and never prints the usage message. -/
theorem main_usage_errors_and_dash_a_crash :
    ((mainModel ["./run-of-test.py", "/a/b"] true true
        (ProcBehavior.exitsWithin 0) "./tmp0").exitStatus = 1 ∧
     (mainModel ["./run-of-test.py", "/a/b"] true true
        (ProcBehavior.exitsWithin 0) "./tmp0").usagePrinted = true ∧
     (mainModel ["./run-of-test.py", "/a/b"] true true
        (ProcBehavior.exitsWithin 0) "./tmp0").invokedExternal = false) ∧
    ((mainModel ["./run-of-test.py", "/a/b", "-x", "x.p4"] true true
        (ProcBehavior.exitsWithin 0) "./tmp0").exitStatus = 1 ∧
     (mainModel ["./run-of-test.py", "/a/b", "-x", "x.p4"] true true
        (ProcBehavior.exitsWithin 0) "./tmp0").usagePrinted = true ∧
     (mainModel ["./run-of-test.py", "/a/b", "-x", "x.p4"] true true
        (ProcBehavior.exitsWithin 0) "./tmp0").invokedExternal = false) ∧
    ((mainModel ["./run-of-test.py", "/a/b", "-a"] true true
        (ProcBehavior.exitsWithin 0) "./tmp0").crashedWithException = true ∧
     (mainModel ["./run-of-test.py", "/a/b", "-a"] true true
        (ProcBehavior.exitsWithin 0) "./tmp0").usagePrinted = false ∧
     (mainModel ["./run-of-test.py", "/a/b", "-a"] true true
        (ProcBehavior.exitsWithin 0) "./tmp0").invokedExternal = false ∧
     (mainModel ["./run-of-test.py", "/a/b", "-a"] true true
        (ProcBehavior.exitsWithin 0) "./tmp0").exitStatus = 1) := by
  refine ⟨⟨by decide, by decide, by decide⟩, ⟨by decide, by decide, by decide⟩,
    by decide, by decide, by decide, by decide⟩

/-- C5 counterexample: at a concrete invocation the captured stderr
path, one of the three derived paths, is absent from the argument
vector handed to the invoked command. -/
theorem stderr_path_not_in_args_cex :
    (process_file { defaultOptions with p4filename := "x.p4" } ["x.p4"] true
        (ProcBehavior.exitsWithin 0) "./tmp0").stderrPath = "./tmp0/x.p4-stderr" ∧
    (process_file { defaultOptions with p4filename := "x.p4" } ["x.p4"] true
        (ProcBehavior.exitsWithin 0) "./tmp0").stderrPath ∉
      (process_file { defaultOptions with p4filename := "x.p4" } ["x.p4"] true
        (ProcBehavior.exitsWithin 0) "./tmp0").args := by
  exact ⟨by decide, by decide⟩

/-- C5 (amended): two of the three derived paths are passed in the
argument vector of the invoked command, the primary output file after
-o and the machine readable info file after the long p4runtime flag;
the captured stderr path is instead handed to run_timeout as its stderr
parameter, which has no effect on run_timeout at all. -/
theorem process_file_arg_vector (options : Options) (argv : List String)
    (behavior : ProcBehavior) (tmpdir : String) :
    (process_file options argv true behavior tmpdir).args =
      ["./p4c-of", "-o", (process_file options argv true behavior tmpdir).outputFile,
       "--p4runtime-files", (process_file options argv true behavior tmpdir).p4runtimeFile]
        ++ options.compilerOptions ++ argv ∧
    (process_file options argv true behavior tmpdir).outputFile ∈
      (process_file options argv true behavior tmpdir).args ∧
    (process_file options argv true behavior tmpdir).p4runtimeFile ∈
      (process_file options argv true behavior tmpdir).args ∧
    ∀ (opts2 : Options) (args2 : List String) (timeout : Nat) (s1 s2 : String)
      (b : ProcBehavior),
      run_timeout opts2 args2 timeout s1 b = run_timeout opts2 args2 timeout s2 b := by
  refine ⟨rfl, ?_, ?_, fun _ _ _ _ _ _ => rfl⟩
  · simp [process_file]
  · simp [process_file]

/-- Witness for C9 at a concrete verbose run that exits with code 0. -/
theorem run_timeout_log_order_witness :
    List.Sublist [Event.procExit 0, Event.logExitCode 0]
      (run_timeout { defaultOptions with verbose := true } ["./p4c-of"] 600 ""
        (ProcBehavior.exitsWithin 0)).2 := by
  exact (run_timeout_log_order { defaultOptions with verbose := true }
    ["./p4c-of"] 600 "" (ProcBehavior.exitsWithin 0)).2.2 0 (by decide)

/-- Helper: the parsing loop never reads the stored root directory, so
two options records that agree on every other field parse any argv to
agreeing outcomes. -/
theorem parseLoop_agree : ∀ (n : Nat) (l : List String), l.length ≤ n →
    ∀ (o1 o2 : Options), o1.cleanupTmp = o2.cleanupTmp → o1.binary = o2.binary →
    o1.p4filename = o2.p4filename → o1.verbose = o2.verbose →
    o1.compilerOptions = o2.compilerOptions →
    agreeExceptRoot (parseLoop o1 l) (parseLoop o2 l) := by
  intro n
  induction n with
  | zero =>
      intro l hl o1 o2 h1 h2 h3 h4 h5
      have hnil : l = [] := List.eq_nil_of_length_eq_zero (Nat.le_zero.mp hl)
      subst hnil
      simp [parseLoop, agreeExceptRoot]
  | succ n ih =>
      intro l hl o1 o2 h1 h2 h3 h4 h5
      cases l with
      | nil => simp [parseLoop, agreeExceptRoot]
      | cons a rest =>
        have hrest : rest.length ≤ n := by
          simp only [List.length_cons] at hl
          omega
        unfold parseLoop
        by_cases he : a.data.isEmpty = true
        · simp [he, agreeExceptRoot]
        · by_cases hc : a.data.head?.getD ' ' = '-'
          · by_cases hb : a = "-b"
            · simp [he, hc, hb, h1, h2, h3, h4, h5]
              exact ih rest hrest _ _ rfl rfl rfl rfl rfl
            · by_cases hv : a = "-v"
              · simp [he, hc, hb, hv, h1, h2, h3, h4, h5]
                exact ih rest hrest _ _ rfl rfl rfl rfl rfl
              · by_cases ha : a = "-a"
                · cases rest with
                  | nil => simp [he, hc, hb, hv, ha, agreeExceptRoot]
                  | cons b rest2 =>
                      have hrest2 : rest2.length ≤ n := by
                        simp only [List.length_cons] at hl
                        omega
                      simp [he, hc, hb, hv, ha, h1, h2, h3, h4, h5]
                      exact ih rest2 hrest2 _ _ rfl rfl rfl rfl rfl
                · simp [he, hc, hb, hv, ha, agreeExceptRoot]
          · simp [he, hc, agreeExceptRoot, h1, h2, h3, h4, h5]

/-- Helper: process_file never reads the stored root directory: it is
determined by the other options fields together with argv, the file
system and the child behavior. -/
theorem process_file_fields (o1 o2 : Options) (h1 : o1.cleanupTmp = o2.cleanupTmp)
    (h2 : o1.p4filename = o2.p4filename) (h3 : o1.verbose = o2.verbose)
    (h4 : o1.compilerOptions = o2.compilerOptions) (argv : List String)
    (p4ex : Bool) (b : ProcBehavior) (tmpdir : String) :
    process_file o1 argv p4ex b tmpdir = process_file o2 argv p4ex b tmpdir := by
  cases b <;> simp [process_file, run_timeout, h1, h2, h3, h4]

/-- C10: the derived test name is stored in options.testName but never
read afterwards: two driver invocations that differ only in the root
directory argument (hence in whether the prefix stripping applies and
in the stored test name) yield the same external argument vector, the
same driver exit status, the same usage behavior and the same decision
whether the external command is invoked. -/
theorem mainModel_root_independent (prog root1 root2 : String) (rest : List String)
    (rootIsDir p4fileExists : Bool) (behavior : ProcBehavior) (tmpdir : String) :
    (mainModel (prog :: root1 :: rest) rootIsDir p4fileExists behavior tmpdir).externalArgs =
      (mainModel (prog :: root2 :: rest) rootIsDir p4fileExists behavior tmpdir).externalArgs ∧
    (mainModel (prog :: root1 :: rest) rootIsDir p4fileExists behavior tmpdir).exitStatus =
      (mainModel (prog :: root2 :: rest) rootIsDir p4fileExists behavior tmpdir).exitStatus ∧
    (mainModel (prog :: root1 :: rest) rootIsDir p4fileExists behavior tmpdir).invokedExternal =
      (mainModel (prog :: root2 :: rest) rootIsDir p4fileExists behavior tmpdir).invokedExternal ∧
    (mainModel (prog :: root1 :: rest) rootIsDir p4fileExists behavior tmpdir).usagePrinted =
      (mainModel (prog :: root2 :: rest) rootIsDir p4fileExists behavior tmpdir).usagePrinted := by
  have hag := parseLoop_agree rest.length rest (Nat.le_refl _)
    { cleanupTmp := true, binary := prog, p4filename := "", compilerSrcdir := root1,
      verbose := false, compilerOptions := [] }
    { cleanupTmp := true, binary := prog, p4filename := "", compilerSrcdir := root2,
      verbose := false, compilerOptions := [] }
    rfl rfl rfl rfl rfl
  by_cases hrest : rest = []
  · subst hrest
    simp [mainModel]
  · cases rootIsDir with
    | false => simp [mainModel, hrest]
    | true =>
      cases hP1 : parseLoop
          { cleanupTmp := true, binary := prog, p4filename := "",
            compilerSrcdir := root1, verbose := false, compilerOptions := [] } rest with
      | ok o1f f1 r1 =>
        cases hP2 : parseLoop
            { cleanupTmp := true, binary := prog, p4filename := "",
              compilerSrcdir := root2, verbose := false, compilerOptions := [] } rest with
        | ok o2f f2 r2 =>
          rw [hP1, hP2] at hag
          simp only [agreeExceptRoot] at hag
          obtain ⟨hf, hr, k1, k2, k3, k4, k5⟩ := hag
          subst hf
          subst hr
          have hpf := process_file_fields
            { o1f with p4filename := (f1 :: r1).getLast (List.cons_ne_nil _ _) }
            { o2f with p4filename := (f1 :: r1).getLast (List.cons_ne_nil _ _) }
            k1 rfl k4 k5 (f1 :: r1) p4fileExists behavior tmpdir
          simp only [mainModel, hP1, hP2, hpf, List.length_cons]
          cases hres : (process_file
              { o2f with p4filename := (f1 :: r1).getLast (List.cons_ne_nil _ _) }
              (f1 :: r1) p4fileExists behavior tmpdir).result <;>
            simp [hres, hrest]
        | usageExit =>
            rw [hP1, hP2] at hag
            simp [agreeExceptRoot] at hag
        | indexError =>
            rw [hP1, hP2] at hag
            simp [agreeExceptRoot] at hag
      | usageExit =>
        cases hP2 : parseLoop
            { cleanupTmp := true, binary := prog, p4filename := "",
              compilerSrcdir := root2, verbose := false, compilerOptions := [] } rest with
        | ok o2f f2 r2 =>
            rw [hP1, hP2] at hag
            simp [agreeExceptRoot] at hag
        | usageExit => simp [mainModel, hP1, hP2]
        | indexError =>
            rw [hP1, hP2] at hag
            simp [agreeExceptRoot] at hag
      | indexError =>
        cases hP2 : parseLoop
            { cleanupTmp := true, binary := prog, p4filename := "",
              compilerSrcdir := root2, verbose := false, compilerOptions := [] } rest with
        | ok o2f f2 r2 =>
            rw [hP1, hP2] at hag
            simp [agreeExceptRoot] at hag
        | usageExit =>
            rw [hP1, hP2] at hag
            simp [agreeExceptRoot] at hag
        | indexError => simp [mainModel, hP1, hP2]
